import Mathlib

/-
Verification of the touchstone-registry connection chassis and
MCP-over-QUIC protocol layer.

Shallow embedding of:
  pkg/mcpquic/errors.go   — stream/connection error code enumeration
  pkg/mcpquic/magic.go    — ValidateMagicBytes / SendMagicBytes
  pkg/mcpquic/server.go   — Handler.ServeConn, Listener.Serve,
                            session.writeNotifications, randomHex
  pkg/mcpquic/client.go   — NewClient
  pkg/chassis (server.go) — Server.Start QUIC accept/demux loop
  pkg/kit (endpoint.go)   — Endpoint, Middleware, Chain

Byte streams are modelled as `List Nat` (each element one octet).
A QUIC reader is a byte list; reading consumes a prefix.  Side-effecting
calls (stream cancel, connection close, session register/unregister,
message dispatch, stream writes) are modelled as an emitted event trace.
-/

namespace Touchstone

/-! ### Error codes (pkg/mcpquic/errors.go)

QUIC stream-level error codes. -/

def StreamErrorNoError : Nat := 0x00

def StreamErrorProtocolConfusion : Nat := 0x02

def StreamErrorMessageTooLarge : Nat := 0x03

/-- QUIC connection-level error code: no error. -/
def ConnErrorNoError : Nat := 0x00

/-- QUIC connection-level error code: unsupported ALPN. -/
def ConnErrorUnsupportedALPN : Nat := 0x01

/-- QUIC connection-level error code: protocol violation. -/
def ConnErrorProtocolViolation : Nat := 0x03

/-! ### Protocol constants (pkg/mcpquic/server.go) -/

/-- ALPN token of the custom protocol: `horos-mcp-v1`. -/
def ALPNProtocolMCP : String := "horos-mcp-v1"

/-- The magic byte string `MCP1` as ASCII octets: M=77, C=67, P=80, 1=49. -/
def MagicBytesMCP : List Nat := [77, 67, 80, 49]

/-! ### Magic byte validation (pkg/mcpquic/magic.go)

`ValidateMagicBytes` reads exactly 4 bytes with `io.ReadFull` and compares
them to `MCP1`.  `io.ReadFull` returns an I/O error when fewer than 4 bytes
are available (short read); a successful read of a wrong sequence returns an
error wrapping the typed `ErrInvalidMagicBytes`.  The two failure modes are
distinct error constructors, mirroring the two distinct Go error wraps. -/

inductive MagicErr where
  /-- `io.ReadFull` failed: fewer than 4 bytes were available (an I/O
  error, wrapped as `failed to read magic bytes`). -/
  | shortRead : MagicErr
  /-- 4 bytes were read but differ from `MCP1`; wraps the typed
  `ErrInvalidMagicBytes` and records the bytes actually read. -/
  | invalidMagic (got : List Nat) : MagicErr
deriving DecidableEq, Repr

/-- Embedding of `ValidateMagicBytes(r io.Reader) error`.  The reader is the
byte list `input`; on success the unconsumed remainder of the reader is
returned (the Go function leaves the reader positioned after the 4 magic
bytes). -/
def ValidateMagicBytes (input : List Nat) : Except MagicErr (List Nat) :=
  if input.length < 4 then
    Except.error MagicErr.shortRead
  else if input.take 4 = MagicBytesMCP then
    Except.ok (input.drop 4)
  else
    Except.error (MagicErr.invalidMagic (input.take 4))

/-- Boolean success test for the handshake read. -/
def MagicOk (input : List Nat) : Bool :=
  match ValidateMagicBytes input with
  | Except.ok _ => true
  | Except.error _ => false

/-! ### Hex encoding (encoding/hex from randomHex, pkg/mcpquic/server.go) -/

/-- Lowercase hex digit for a value below 16 (ASCII `0`..`9`, `a`..`f`). -/
def hexDigit (n : Nat) : Char :=
  if n < 10 then Char.ofNat (48 + n) else Char.ofNat (87 + n)

/-- Two lowercase hex characters for one octet. -/
def hexByte (b : Nat) : String :=
  String.mk [hexDigit (b / 16 % 16), hexDigit (b % 16)]

/-- `hex.EncodeToString`: lowercase hex, two characters per byte, in input
order. -/
def hexEncode : List Nat → String
  | [] => ""
  | b :: bs => hexByte b ++ hexEncode bs

/-- Embedding of `randomHex(n int) string`: `crypto/rand.Read` fills an
`n`-byte buffer from the random source (modelled as the byte list `src`),
which is then hex-encoded. -/
def randomHex (n : Nat) (src : List Nat) : String :=
  hexEncode (src.take n)

/-! ### Connection handler trace model (Handler.ServeConn, server.go)

The handler's observable effects are modelled as an event trace.  The
notification-drain goroutine started by `ServeConn` is modelled separately
(see the write-mutex model below); its writes are asynchronous and do not
appear in this trace. -/

inductive Event where
  /-- `stream.CancelWrite(code)` -/
  | cancelWrite (code : Nat) : Event
  /-- `stream.CancelRead(code)` -/
  | cancelRead (code : Nat) : Event
  /-- `conn.CloseWithError(code, msg)` -/
  | closeConn (code : Nat) (msg : String) : Event
  /-- `stream.Close()` -/
  | closeStream : Event
  /-- successful `mcpServer.RegisterSession` for session `id` -/
  | registerSession (id : String) : Event
  /-- `mcpServer.UnregisterSession` for session `id` -/
  | unregisterSession (id : String) : Event
  /-- `mcpServer.HandleMessage` invoked on one line -/
  | dispatch (line : List Nat) : Event
  /-- `stream.Write` of a marshalled response from the read loop -/
  | writeStream (bytes : List Nat) : Event
deriving DecidableEq, Repr

/-- Inputs determining one `ServeConn` run.  `acceptOk` is whether
`conn.AcceptStream` succeeds; `streamBytes` is everything the client sends
on the stream; `randomBytes` is the `crypto/rand` source consumed by
`randomHex`; `regOk` is whether the external `RegisterSession` call
succeeds; `handler` is the external `HandleMessage` combined with
`json.Marshal` — `none` when there is no response (or marshalling fails,
both of which `continue`), otherwise the marshalled response bytes. -/
structure ConnInput where
  acceptOk : Bool
  streamBytes : List Nat
  randomBytes : List Nat
  regOk : Bool
  handler : List Nat → Option (List Nat)

/-- `bufio.Reader.ReadBytes('\n')` repeatedly: split the stream into
complete newline-terminated lines (newline 10 stripped, as the loop does
`line = line[:len(line)-1]`).  Trailing bytes with no final newline are
returned by `ReadBytes` together with an error, so the read loop breaks
without processing them. -/
def splitCompleteLines : List Nat → List Nat → List (List Nat)
  | [], _ => []
  | b :: rest, acc =>
    if b = 10 then acc :: splitCompleteLines rest []
    else splitCompleteLines rest (acc ++ [b])

/-- The read loop of `ServeConn` (server.go): each complete line is one
message; an empty line is skipped; otherwise the message is dispatched and,
when the handler yields a (marshalled) response, the response is written
newline-terminated to the stream. -/
def readLoop (handler : List Nat → Option (List Nat)) :
    List (List Nat) → List Event
  | [] => []
  | line :: rest =>
    if line = [] then readLoop handler rest
    else
      Event.dispatch line ::
        match handler line with
        | none => readLoop handler rest
        | some resp => Event.writeStream (resp ++ [10]) :: readLoop handler rest

/-- The session identity built by `ServeConn`:
`sessionID := "quic_" + randomHex(4)`. -/
def sessionIDOf (inp : ConnInput) : String :=
  "quic_" ++ randomHex 4 inp.randomBytes

/-- Embedding of `Handler.ServeConn` (pkg/mcpquic/server.go).
Paths, in source order:
1. `AcceptStream` failure → close connection with protocol-violation.
2. `ValidateMagicBytes` failure → cancel write then read with
   protocol-confusion, close connection with protocol-violation.
3. `RegisterSession` failure → `stream.Close()` and return (no read loop).
4. Otherwise: register, run the read loop, and (deferred) unregister. -/
def ServeConn (inp : ConnInput) : List Event :=
  if ¬ inp.acceptOk then
    [Event.closeConn ConnErrorProtocolViolation "stream accept failed"]
  else
    match ValidateMagicBytes inp.streamBytes with
    | Except.error _ =>
      [Event.cancelWrite StreamErrorProtocolConfusion,
       Event.cancelRead StreamErrorProtocolConfusion,
       Event.closeConn ConnErrorProtocolViolation "invalid magic bytes"]
    | Except.ok rest =>
      if ¬ inp.regOk then
        [Event.closeStream]
      else
        Event.registerSession (sessionIDOf inp) ::
          (readLoop inp.handler (splitCompleteLines rest []) ++
            [Event.unregisterSession (sessionIDOf inp)])

/-- Whether the handshake (stream accept + magic bytes) completed
successfully for this input. -/
def handshakeCompleted (inp : ConnInput) : Bool :=
  inp.acceptOk && MagicOk inp.streamBytes

/-- Discriminator: is this event a successful session registration? -/
def Event.isRegister : Event → Bool
  | Event.registerSession _ => true
  | _ => false

/-- Discriminator: is this event a session unregistration? -/
def Event.isUnregister : Event → Bool
  | Event.unregisterSession _ => true
  | _ => false

/-- Discriminator: is this event an inbound message dispatch? -/
def Event.isDispatch : Event → Bool
  | Event.dispatch _ => true
  | _ => false

/-- The reply bytes carried by a `writeStream` event, if any. -/
def Event.replyBytes : Event → Option (List Nat)
  | Event.writeStream b => some b
  | _ => none

/-- The line carried by a `dispatch` event, if any. -/
def Event.dispatchLine : Event → Option (List Nat)
  | Event.dispatch l => some l
  | _ => none

/-- Number of successful session registrations in a trace. -/
def countRegisters (tr : List Event) : Nat :=
  tr.countP Event.isRegister

/-- Number of session unregistrations in a trace. -/
def countUnregisters (tr : List Event) : Nat :=
  tr.countP Event.isUnregister

/-- Number of dispatched inbound messages in a trace. -/
def countDispatches (tr : List Event) : Nat :=
  tr.countP Event.isDispatch

/-- Whether a session was ever (successfully) registered during the run. -/
def registeredDuring (tr : List Event) : Bool :=
  tr.any Event.isRegister

/-- The reply bytes written to the stream by the read loop, in order. -/
def responsesOf (tr : List Event) : List (List Nat) :=
  tr.filterMap Event.replyBytes

/-- The lines dispatched to `HandleMessage`, in order. -/
def dispatchesOf (tr : List Event) : List (List Nat) :=
  tr.filterMap Event.dispatchLine

/-! ### Chassis QUIC demux (pkg/chassis server.go, Server.Start)

For each accepted QUIC connection the chassis accept loop switches on the
negotiated ALPN: `"h3"` is handed to the HTTP/3 engine on its own
goroutine, the custom token is handed to `mcpHandler.ServeConn` on its own
goroutine (or, with no MCP server configured, closed with the literal code
`0x10`), and anything else is closed with the literal code `0x11`. -/

inductive DemuxAction where
  /-- `go s.h3Server.ServeQUICConn(conn)` -/
  | serveH3 : DemuxAction
  /-- `go s.mcpHandler.ServeConn(ctx, conn)` -/
  | serveMCP : DemuxAction
  /-- `conn.CloseWithError(code, msg)`; no handler goroutine is started -/
  | closeConn (code : Nat) (msg : String) : DemuxAction
deriving DecidableEq, Repr

/-- Embedding of the `switch alpn` in the chassis accept loop
(`Server.Start`).  `mcpEnabled` is whether `s.mcpHandler != nil`. -/
def chassisDemux (alpn : String) (mcpEnabled : Bool) : DemuxAction :=
  if alpn = "h3" then
    DemuxAction.serveH3
  else if alpn = ALPNProtocolMCP then
    if mcpEnabled then DemuxAction.serveMCP
    else DemuxAction.closeConn 0x10 "MCP not enabled"
  else
    DemuxAction.closeConn 0x11 ("unsupported ALPN: " ++ alpn)

/-- Embedding of the ALPN check in the standalone `Listener.Serve`
(pkg/mcpquic/server.go): any ALPN other than the custom token is closed
with `ConnErrorUnsupportedALPN`. -/
def listenerDemux (alpn : String) : DemuxAction :=
  if ¬ (alpn = ALPNProtocolMCP) then
    DemuxAction.closeConn ConnErrorUnsupportedALPN ("unsupported ALPN: " ++ alpn)
  else
    DemuxAction.serveMCP

/-! ### Accept-loop error behaviour (chassis Server.Start vs Listener.Serve)

Both accept loops call `Accept(ctx)` in a `for` loop.  Their reactions to
an accept error differ and are modelled as one loop-iteration step on the
pair (did Accept fail?, is the top-level context cancelled?). -/

inductive LoopStep where
  /-- a connection was accepted; it is handled and the loop iterates -/
  | handleConn : LoopStep
  /-- the error is logged and the loop iterates (`continue`) -/
  | continueAfterLog : LoopStep
  /-- the loop returns treating the error as expected shutdown
  (chassis: bare `return`; standalone listener: `return ctx.Err()`) -/
  | exitCanceled : LoopStep
  /-- the loop pushes the error onto the chassis error channel (so
  `Start` returns it) and returns -/
  | exitWithError : LoopStep
deriving DecidableEq, Repr

/-- One iteration of the chassis accept loop (`Server.Start`):
on `Accept` error it returns — silently when the context is cancelled,
otherwise sending the error to `errCh` and exiting the loop. -/
def chassisAcceptStep (acceptErr : Bool) (ctxCanceled : Bool) : LoopStep :=
  if acceptErr then
    if ctxCanceled then LoopStep.exitCanceled else LoopStep.exitWithError
  else
    LoopStep.handleConn

/-- One iteration of the standalone `Listener.Serve` accept loop:
on `Accept` error it returns `ctx.Err()` when the context is cancelled and
otherwise logs the error and continues. -/
def listenerServeStep (acceptErr : Bool) (ctxCanceled : Bool) : LoopStep :=
  if acceptErr then
    if ctxCanceled then LoopStep.exitCanceled else LoopStep.continueAfterLog
  else
    LoopStep.handleConn

/-! ### Stream-writer lock discipline (server.go)

Two code paths write to the stream of one session:
the synchronous reply write in the `ServeConn` read loop, and the
notification write in `session.writeNotifications`.  Each path is embedded
as its sequence of atomic actions on the session's write mutex `s.mu` and
the stream writer. -/

inductive WAct where
  | lock : WAct
  | unlock : WAct
  | beginWrite : WAct
  | endWrite : WAct
deriving DecidableEq, Repr

/-- The reply write in the `ServeConn` read loop:
`data = append(data, '\n'); stream.Write(data)` — performed with no lock
acquisition. -/
def replyWriteActs : List WAct :=
  [WAct.beginWrite, WAct.endWrite]

/-- One notification write in `session.writeNotifications`:
`s.mu.Lock(); w.Write(data); s.mu.Unlock()`. -/
def writeNotificationsActs : List WAct :=
  [WAct.lock, WAct.beginWrite, WAct.endWrite, WAct.unlock]

/-- Whether every `beginWrite` in a single thread's action sequence occurs
while that thread holds the mutex (`held` tracks the lock state). -/
def writesUnderLock : List WAct → Bool → Bool
  | [], _ => true
  | WAct.lock :: rest, _ => writesUnderLock rest true
  | WAct.unlock :: rest, _ => writesUnderLock rest false
  | WAct.beginWrite :: rest, held => held && writesUnderLock rest held
  | WAct.endWrite :: rest, held => writesUnderLock rest held

/-- A schedule interleaves two threads; `false` tags the read-loop reply
writer and `true` tags the notification goroutine. -/
def Sched : Type := List (Bool × WAct)

/-- The subsequence of actions a schedule assigns to thread `t`. -/
def threadActs (t : Bool) (s : Sched) : List WAct :=
  (s.filter (fun p => p.1 = t)).map (fun p => p.2)

/-- `s` is an interleaving of thread `false` running `a` and thread `true`
running `b`. -/
def IsInterleaving (s : Sched) (a b : List WAct) : Prop :=
  threadActs false s = a ∧ threadActs true s = b

instance (s : Sched) (a b : List WAct) : Decidable (IsInterleaving s a b) :=
  inferInstanceAs (Decidable (_ ∧ _))

/-- Mutex semantics: `lock` succeeds only when the mutex is free and
`unlock` only by the holder (`holder` is the current owner, if any). -/
def lockRespecting : Sched → Option Bool → Bool
  | [], _ => true
  | (t, WAct.lock) :: rest, none => lockRespecting rest (some t)
  | (_, WAct.lock) :: _, some _ => false
  | (t, WAct.unlock) :: rest, some t' =>
    if t = t' then lockRespecting rest none else false
  | (_, WAct.unlock) :: _, none => false
  | (_, _) :: rest, holder => lockRespecting rest holder

/-- Whether, at some point of the schedule, both threads are between their
`beginWrite` and `endWrite` — i.e. two writes to the stream overlap.
`w0`/`w1` track whether thread `false`/`true` is currently writing. -/
def hasOverlap : Sched → Bool → Bool → Bool
  | [], _, _ => false
  | (t, WAct.beginWrite) :: rest, w0, w1 =>
    let w0' := if t then w0 else true
    let w1' := if t then true else w1
    (w0' && w1') || hasOverlap rest w0' w1'
  | (t, WAct.endWrite) :: rest, w0, w1 =>
    hasOverlap rest (if t then w0 else false) (if t then false else w1)
  | _ :: rest, w0, w1 => hasOverlap rest w0 w1

/-- A concrete schedule: the notification goroutine takes the lock and
begins its write; the read loop's reply write runs to completion in the
middle of it; the notification write then finishes and unlocks. -/
def raceSchedule : Sched :=
  [(true, WAct.lock), (true, WAct.beginWrite),
   (false, WAct.beginWrite), (false, WAct.endWrite),
   (true, WAct.endWrite), (true, WAct.unlock)]

/-! ### Dispatch contract (pkg/kit endpoint.go) -/

/-- `Endpoint`: a transport-agnostic action function
`func(ctx, request) (response, error)`.  The Go `(response any, err
error)` pair is abstracted as the result type `Res`. -/
def Endpoint (Ctx Req Res : Type) : Type :=
  Ctx → Req → Res

/-- `Middleware` wraps an `Endpoint` in another. -/
def Middleware (Ctx Req Res : Type) : Type :=
  Endpoint Ctx Req Res → Endpoint Ctx Req Res

/-- Embedding of `Chain(outer Middleware, others ...Middleware)`:
the source iterates `i` from `len(others)-1` down to `0` doing
`next = others[i](next)` and finally applies `outer`, i.e. a right fold of
`others` over `next` wrapped in `outer`. -/
def Chain {Ctx Req Res : Type} (outer : Middleware Ctx Req Res)
    (others : List (Middleware Ctx Req Res)) : Middleware Ctx Req Res :=
  fun next => outer (others.foldr (fun m acc => m acc) next)

/-- A middleware that records its pre- and post-logic in the request
trace, to observe execution order. -/
def mkTraceMW (tag : String) : Middleware Unit (List String) (List String) :=
  fun next => fun ctx t => (next ctx (t ++ ["pre-" ++ tag])) ++ ["post-" ++ tag]

/-- An endpoint that records its own execution in the trace. -/
def traceEndpoint : Endpoint Unit (List String) (List String) :=
  fun _ t => t ++ ["endpoint"]

/-! ### Client construction (pkg/mcpquic/client.go, server.go) -/

/-- The fields of `crypto/tls.Config` that `ClientTLSConfig` sets:
ALPN list, minimum TLS version (`tls.VersionTLS13 = 0x0304`), and
`InsecureSkipVerify`. -/
structure TLSConfig where
  nextProtos : List String
  minVersion : Nat
  insecureSkipVerify : Bool
deriving DecidableEq, Repr

/-- `tls.VersionTLS13`. -/
def VersionTLS13 : Nat := 0x0304

/-- Embedding of `ClientTLSConfig(insecure bool) *tls.Config`
(pkg/mcpquic/server.go). -/
def ClientTLSConfig (insecure : Bool) : TLSConfig :=
  { nextProtos := [ALPNProtocolMCP]
    minVersion := VersionTLS13
    insecureSkipVerify := insecure }

/-- The fields of `Client` set by `NewClient`. -/
structure Client where
  addr : String
  tlsCfg : TLSConfig
deriving DecidableEq, Repr

/-- Embedding of `NewClient(addr string, tlsCfg *tls.Config)`: a nil TLS
config (modelled as `none`) is replaced by `ClientTLSConfig(true)` — the
insecure development default. -/
def NewClient (addr : String) (tlsCfg : Option TLSConfig) : Client :=
  { addr := addr
    tlsCfg :=
      match tlsCfg with
      | none => ClientTLSConfig true
      | some cfg => cfg }

/-! ### Shared lemmas -/

/-- A stream whose first 4 bytes are the magic sequence has at least 4
bytes. -/
lemma length_ge_four_of_take {input : List Nat}
    (h : input.take 4 = MagicBytesMCP) : 4 ≤ input.length := by
  have hlen := congrArg List.length h
  simp only [List.length_take, MagicBytesMCP, List.length_cons,
    List.length_nil] at hlen
  omega

/-- `ValidateMagicBytes` succeeds on a stream beginning with the magic
sequence and leaves the reader positioned after the 4 bytes. -/
lemma validateMagicBytes_ok {input : List Nat}
    (h : input.take 4 = MagicBytesMCP) :
    ValidateMagicBytes input = Except.ok (input.drop 4) := by
  have hlen := length_ge_four_of_take h
  unfold ValidateMagicBytes
  rw [if_neg (by omega), if_pos h]

/-- `ValidateMagicBytes` fails on any stream not beginning with the magic
sequence: with `shortRead` when fewer than 4 bytes are available, and with
`invalidMagic` otherwise. -/
lemma validateMagicBytes_err {input : List Nat}
    (h : input.take 4 ≠ MagicBytesMCP) :
    ValidateMagicBytes input =
      Except.error
        (if input.length < 4 then MagicErr.shortRead
         else MagicErr.invalidMagic (input.take 4)) := by
  unfold ValidateMagicBytes
  by_cases hl : input.length < 4
  · rw [if_pos hl, if_pos hl]
  · rw [if_neg hl, if_neg h, if_neg hl]

/-- The handshake read succeeds exactly when the stream starts with the
magic sequence. -/
lemma magicOk_true_iff {input : List Nat} :
    MagicOk input = true ↔ input.take 4 = MagicBytesMCP := by
  constructor
  · intro h
    by_contra hne
    unfold MagicOk at h
    rw [validateMagicBytes_err hne] at h
    exact Bool.false_ne_true h
  · intro h
    unfold MagicOk
    rw [validateMagicBytes_ok h]

/-- The read loop never registers a session. -/
lemma readLoop_countRegisters (h : List Nat → Option (List Nat))
    (lines : List (List Nat)) :
    List.countP Event.isRegister (readLoop h lines) = 0 := by
  induction lines with
  | nil => rfl
  | cons line rest ih =>
    rw [readLoop]
    by_cases hl : line = []
    · rw [if_pos hl]; exact ih
    · rw [if_neg hl]
      cases hr : h line with
      | none =>
        simp only [hr, List.countP_cons, Event.isRegister]
        simpa using ih
      | some r =>
        simp only [hr, List.countP_cons, Event.isRegister]
        simpa using ih

/-- The read loop never unregisters a session. -/
lemma readLoop_countUnregisters (h : List Nat → Option (List Nat))
    (lines : List (List Nat)) :
    List.countP Event.isUnregister (readLoop h lines) = 0 := by
  induction lines with
  | nil => rfl
  | cons line rest ih =>
    rw [readLoop]
    by_cases hl : line = []
    · rw [if_pos hl]; exact ih
    · rw [if_neg hl]
      cases hr : h line with
      | none =>
        simp only [hr, List.countP_cons, Event.isUnregister]
        simpa using ih
      | some r =>
        simp only [hr, List.countP_cons, Event.isUnregister]
        simpa using ih

/-- The read loop dispatches exactly the nonempty lines, in order. -/
lemma readLoop_dispatches (h : List Nat → Option (List Nat))
    (lines : List (List Nat)) :
    List.filterMap Event.dispatchLine (readLoop h lines) =
      lines.filter (fun l => !l.isEmpty) := by
  induction lines with
  | nil => rfl
  | cons line rest ih =>
    rw [readLoop]
    by_cases hl : line = []
    · subst hl
      rw [if_pos rfl]
      simpa using ih
    · rw [if_neg hl]
      have hne : (!line.isEmpty) = true := by
        cases line with
        | nil => exact absurd rfl hl
        | cons a as => rfl
      simp only [List.filter_cons, hne, if_true]
      cases hr : h line with
      | none =>
        simp only [hr, List.filterMap_cons, Event.dispatchLine]
        rw [← ih]
      | some r =>
        simp only [hr, List.filterMap_cons, Event.dispatchLine,
          Event.replyBytes]
        rw [← ih]

/-- The read loop writes exactly one newline-terminated reply for each
nonempty line whose handler result is non-nil, in line order. -/
lemma readLoop_responses (h : List Nat → Option (List Nat))
    (lines : List (List Nat)) :
    List.filterMap Event.replyBytes (readLoop h lines) =
      ((lines.filter (fun l => !l.isEmpty)).filterMap h).map
        (fun r => r ++ [10]) := by
  induction lines with
  | nil => rfl
  | cons line rest ih =>
    rw [readLoop]
    by_cases hl : line = []
    · subst hl
      rw [if_pos rfl]
      simpa using ih
    · rw [if_neg hl]
      have hne : (!line.isEmpty) = true := by
        cases line with
        | nil => exact absurd rfl hl
        | cons a as => rfl
      simp only [List.filter_cons, hne, if_true, List.filterMap_cons]
      cases hr : h line with
      | none =>
        simp only [hr, List.filterMap_cons, Event.replyBytes]
        exact ih
      | some r =>
        simp only [hr, List.filterMap_cons, Event.replyBytes,
          List.map_cons]
        rw [← ih]

/-- On a successful handshake and registration, `ServeConn` unfolds to the
register / read-loop / unregister trace. -/
lemma serveConn_success_trace {inp : ConnInput}
    (hacc : inp.acceptOk = true)
    (hmagic : inp.streamBytes.take 4 = MagicBytesMCP)
    (hreg : inp.regOk = true) :
    ServeConn inp =
      Event.registerSession (sessionIDOf inp) ::
        (readLoop inp.handler
            (splitCompleteLines (inp.streamBytes.drop 4) []) ++
          [Event.unregisterSession (sessionIDOf inp)]) := by
  unfold ServeConn
  rw [hacc, validateMagicBytes_ok hmagic]
  simp [hreg]

/-- On a successful handshake but failed registration, `ServeConn` closes
the stream and stops. -/
lemma serveConn_regFail_trace {inp : ConnInput}
    (hacc : inp.acceptOk = true)
    (hmagic : inp.streamBytes.take 4 = MagicBytesMCP)
    (hreg : inp.regOk = false) :
    ServeConn inp = [Event.closeStream] := by
  unfold ServeConn
  rw [hacc, validateMagicBytes_ok hmagic]
  simp [hreg]

/-- On a magic-byte mismatch, `ServeConn` cancels the stream both ways with
the protocol-confusion code and closes the connection with
protocol-violation. -/
lemma serveConn_badMagic_trace {inp : ConnInput}
    (hacc : inp.acceptOk = true)
    (hbad : inp.streamBytes.take 4 ≠ MagicBytesMCP) :
    ServeConn inp =
      [Event.cancelWrite StreamErrorProtocolConfusion,
       Event.cancelRead StreamErrorProtocolConfusion,
       Event.closeConn ConnErrorProtocolViolation "invalid magic bytes"] := by
  unfold ServeConn
  rw [hacc, validateMagicBytes_err hbad]
  simp

/-- On a stream-accept failure, `ServeConn` closes the connection with
protocol-violation. -/
lemma serveConn_acceptFail_trace {inp : ConnInput}
    (hacc : inp.acceptOk = false) :
    ServeConn inp =
      [Event.closeConn ConnErrorProtocolViolation "stream accept failed"] := by
  unfold ServeConn
  rw [hacc]
  simp

/-- The hex encoding of `n` bytes has `2 * n` characters. -/
lemma hexEncode_length (bs : List Nat) :
    (hexEncode bs).length = 2 * bs.length := by
  induction bs with
  | nil => rfl
  | cons b rest ih =>
    rw [hexEncode, String.length_append, ih]
    have hb : (hexByte b).length = 2 := rfl
    rw [hb, List.length_cons]
    ring

/-! ### Claims -/

/-- C1: evaluation of the chassis accept-loop demux at the unsupported
ALPN `ftp`.  The claim states the connection is closed with the
unsupported-ALPN code `0x01` (`ConnErrorUnsupportedALPN` in errors.go) and
no handler goroutine started.  No handler goroutine is indeed started, but
the chassis closes with the ad-hoc literal code `0x11`, not `0x01`; the
repository's own error-code enumeration reserves `0x01` for unsupported
ALPN, and the standalone `Listener.Serve` uses it. -/
theorem C1_chassis_unsupported_alpn_evaluation :
    chassisDemux "ftp" true =
      DemuxAction.closeConn 0x11 "unsupported ALPN: ftp" ∧
    decide (chassisDemux "ftp" true =
      DemuxAction.closeConn ConnErrorUnsupportedALPN "unsupported ALPN: ftp") =
        false ∧
    decide (chassisDemux "ftp" true = DemuxAction.serveH3) = false ∧
    decide (chassisDemux "ftp" true = DemuxAction.serveMCP) = false ∧
    listenerDemux "ftp" =
      DemuxAction.closeConn ConnErrorUnsupportedALPN "unsupported ALPN: ftp" ∧
    ConnErrorUnsupportedALPN = 0x01 := by
  exact ⟨by decide, by decide, by decide, by decide, by decide, rfl⟩

/-- C2: on a custom-protocol connection whose first 4 stream bytes are not
`MCP1`, `ServeConn` cancels the stream in the write and read directions
with the protocol-confusion code `0x02`, closes the connection with the
protocol-violation code `0x03`, and never registers a session. -/
theorem C2_bad_magic_closes_connection (inp : ConnInput)
    (hacc : inp.acceptOk = true)
    (hbad : inp.streamBytes.take 4 ≠ MagicBytesMCP) :
    ServeConn inp =
      [Event.cancelWrite StreamErrorProtocolConfusion,
       Event.cancelRead StreamErrorProtocolConfusion,
       Event.closeConn ConnErrorProtocolViolation "invalid magic bytes"] ∧
    countRegisters (ServeConn inp) = 0 ∧
    registeredDuring (ServeConn inp) = false := by
  have h := serveConn_badMagic_trace hacc hbad
  exact ⟨h, by rw [countRegisters, h]; rfl, by rw [registeredDuring, h]; rfl⟩

def cInput2 : ConnInput :=
  { acceptOk := true
    streamBytes := [88, 88, 88, 88]
    randomBytes := [1, 2, 3, 4]
    regOk := true
    handler := fun _ => none }

/-- C2 witness: a client that sends `XXXX` instead of `MCP1`. -/
theorem C2_witness :
    ServeConn cInput2 =
      [Event.cancelWrite StreamErrorProtocolConfusion,
       Event.cancelRead StreamErrorProtocolConfusion,
       Event.closeConn ConnErrorProtocolViolation "invalid magic bytes"] ∧
    countRegisters (ServeConn cInput2) = 0 ∧
    registeredDuring (ServeConn cInput2) = false :=
  C2_bad_magic_closes_connection cInput2 rfl (by decide)

/-- C3: `ValidateMagicBytes` succeeds exactly on readers whose first 4
bytes are `MCP1`, consuming exactly those 4 bytes; fewer than 4 available
bytes give the I/O-style `shortRead` error rather than a partial match; a
4-byte mismatch gives the typed `invalidMagic` error, a constructor
distinct from the I/O one. -/
theorem C3_validate_magic_bytes (input : List Nat) :
    ((∃ rest, ValidateMagicBytes input = Except.ok rest) ↔
      4 ≤ input.length ∧ input.take 4 = MagicBytesMCP) ∧
    (input.take 4 = MagicBytesMCP →
      ValidateMagicBytes input = Except.ok (input.drop 4)) ∧
    (input.length < 4 →
      ValidateMagicBytes input = Except.error MagicErr.shortRead) ∧
    (4 ≤ input.length → input.take 4 ≠ MagicBytesMCP →
      ValidateMagicBytes input =
        Except.error (MagicErr.invalidMagic (input.take 4))) ∧
    (∀ got, MagicErr.invalidMagic got ≠ MagicErr.shortRead) := by
  refine ⟨⟨?_, ?_⟩, ?_, ?_, ?_, ?_⟩
  · rintro ⟨rest, hr⟩
    by_cases hm : input.take 4 = MagicBytesMCP
    · exact ⟨length_ge_four_of_take hm, hm⟩
    · rw [validateMagicBytes_err hm] at hr
      exact Except.noConfusion hr
  · rintro ⟨hlen, hm⟩
    exact ⟨input.drop 4, validateMagicBytes_ok hm⟩
  · intro hm
    exact validateMagicBytes_ok hm
  · intro hl
    unfold ValidateMagicBytes
    rw [if_pos hl]
  · intro hlen hm
    rw [validateMagicBytes_err hm, if_neg (by omega)]
  · intro got h
    exact MagicErr.noConfusion h

/-- C3 witness: a correct handshake, a short read, and a 4-byte mismatch
at concrete inputs. -/
theorem C3_witness :
    ValidateMagicBytes [77, 67, 80, 49, 10] = Except.ok [10] ∧
    ValidateMagicBytes [77, 67] = Except.error MagicErr.shortRead ∧
    ValidateMagicBytes [88, 88, 88, 88] =
      Except.error (MagicErr.invalidMagic [88, 88, 88, 88]) := by
  refine ⟨?_, ?_, ?_⟩
  · exact (C3_validate_magic_bytes [77, 67, 80, 49, 10]).2.1 (by decide)
  · exact (C3_validate_magic_bytes [77, 67]).2.2.1 (by decide)
  · exact (C3_validate_magic_bytes [88, 88, 88, 88]).2.2.2.1 (by decide)
      (by decide)

def cInput4 : ConnInput :=
  { acceptOk := true
    streamBytes := [77, 67, 80, 49]
    randomBytes := [0, 17, 34, 51, 68, 85, 102, 119]
    regOk := true
    handler := fun _ => none }

/-- C4 counterexample: with the 8 random bytes
`00 11 22 33 44 55 66 77` available from the random source, the session
identity the code registers is `quic_00112233` — the hex encoding of only
the first 4 random bytes — not the hex encoding of 8 random bytes. -/
theorem C4_counterexample :
    ServeConn cInput4 =
      [Event.registerSession "quic_00112233",
       Event.unregisterSession "quic_00112233"] ∧
    decide ("quic_00112233" =
      "quic_" ++ hexEncode (cInput4.randomBytes.take 8)) = false := by
  exact ⟨by decide, by decide⟩

/-- C4 (amended): the session identity is generated from 4 random bytes,
hex-encoded (8 hex characters), prefixed with `quic_` to disambiguate the
transport; and a registration failure closes the stream and returns
without ever starting the read loop (no dispatch, no reply, no
registration). -/
theorem C4_session_identity_and_regfail (inp : ConnInput)
    (hacc : inp.acceptOk = true)
    (hmagic : inp.streamBytes.take 4 = MagicBytesMCP)
    (hrand : 4 ≤ inp.randomBytes.length) :
    sessionIDOf inp = "quic_" ++ hexEncode (inp.randomBytes.take 4) ∧
    (sessionIDOf inp).length = "quic_".length + 8 ∧
    (inp.regOk = false →
      ServeConn inp = [Event.closeStream] ∧
      countRegisters (ServeConn inp) = 0 ∧
      countDispatches (ServeConn inp) = 0 ∧
      responsesOf (ServeConn inp) = []) := by
  refine ⟨rfl, ?_, fun hreg => ?_⟩
  · unfold sessionIDOf randomHex
    rw [String.length_append, hexEncode_length, List.length_take,
      Nat.min_eq_left hrand]
  · have h := serveConn_regFail_trace hacc hmagic hreg
    exact ⟨h, by rw [countRegisters, h]; rfl, by rw [countDispatches, h]; rfl,
      by rw [responsesOf, h]; rfl⟩

def wInput4 : ConnInput :=
  { acceptOk := true
    streamBytes := [77, 67, 80, 49]
    randomBytes := [255, 0, 1, 2]
    regOk := false
    handler := fun _ => none }

/-- C4 witness: a handshake-passing connection whose registration fails;
its would-be identity is the `quic_`-prefixed hex of 4 random bytes. -/
theorem C4_witness :
    sessionIDOf wInput4 = "quic_ff000102" ∧
    (sessionIDOf wInput4).length = 13 ∧
    ServeConn wInput4 = [Event.closeStream] := by
  have h := C4_session_identity_and_regfail wInput4 rfl (by decide) (by decide)
  exact ⟨h.1.trans (by decide), h.2.1.trans rfl, (h.2.2 rfl).1⟩

def cInput5 : ConnInput :=
  { acceptOk := true
    streamBytes := [77, 67, 80, 49]
    randomBytes := [1, 2, 3, 4]
    regOk := false
    handler := fun _ => none }

/-- C5 counterexample: a connection whose handshake completes successfully
but whose `RegisterSession` call fails — the handshake completed, yet no
session was ever registered, refuting "a session exists in the table if
and only if the handshake completed successfully". -/
theorem C5_counterexample :
    handshakeCompleted cInput5 = true ∧
    registeredDuring (ServeConn cInput5) = false := by
  exact ⟨rfl, rfl⟩

/-- C5 (amended): a session is registered during a connection's run if and
only if its handshake completed successfully AND the registration call
succeeded; in that case exactly one session is registered — as the first
action, before any inbound message is dispatched — and exactly one session
is unregistered — as the last action, when the read loop terminates; on
every other exit path nothing is registered and nothing is unregistered. -/
theorem C5_session_lifecycle (inp : ConnInput) :
    registeredDuring (ServeConn inp) = (handshakeCompleted inp && inp.regOk) ∧
    (handshakeCompleted inp = true → inp.regOk = true →
      ServeConn inp =
        Event.registerSession (sessionIDOf inp) ::
          (readLoop inp.handler
              (splitCompleteLines (inp.streamBytes.drop 4) []) ++
            [Event.unregisterSession (sessionIDOf inp)]) ∧
      countRegisters (ServeConn inp) = 1 ∧
      countUnregisters (ServeConn inp) = 1) ∧
    (¬ (handshakeCompleted inp = true ∧ inp.regOk = true) →
      countRegisters (ServeConn inp) = 0 ∧
      countUnregisters (ServeConn inp) = 0) := by
  cases hacc : inp.acceptOk with
  | false =>
    have ht := serveConn_acceptFail_trace hacc
    have hh : handshakeCompleted inp = false := by
      rw [handshakeCompleted, hacc, Bool.false_and]
    refine ⟨?_, fun h1 => absurd (hh ▸ h1) (by simp), fun _ => ?_⟩
    · rw [registeredDuring, ht, hh, Bool.false_and]
      rfl
    · exact ⟨by rw [countRegisters, ht]; rfl, by rw [countUnregisters, ht]; rfl⟩
  | true =>
    by_cases hm : inp.streamBytes.take 4 = MagicBytesMCP
    · have hh : handshakeCompleted inp = true := by
        rw [handshakeCompleted, hacc, magicOk_true_iff.mpr hm]
        rfl
      cases hreg : inp.regOk with
      | false =>
        have ht := serveConn_regFail_trace hacc hm hreg
        refine ⟨?_, fun _ h2 => absurd h2 Bool.false_ne_true, fun _ => ?_⟩
        · rw [registeredDuring, ht, hh, Bool.true_and]
          rfl
        · exact ⟨by rw [countRegisters, ht]; rfl,
            by rw [countUnregisters, ht]; rfl⟩
      | true =>
        have ht := serveConn_success_trace hacc hm hreg
        refine ⟨?_, fun _ _ => ⟨ht, ?_, ?_⟩,
          fun hcon => absurd ⟨hh, rfl⟩ hcon⟩
        · rw [registeredDuring, ht, hh, Bool.true_and]
          rfl
        · rw [countRegisters, ht, List.countP_cons, List.countP_append,
            readLoop_countRegisters]
          rfl
        · rw [countUnregisters, ht, List.countP_cons, List.countP_append,
            readLoop_countUnregisters]
          rfl
    · have hmo : MagicOk inp.streamBytes = false := by
        cases hok : MagicOk inp.streamBytes with
        | false => rfl
        | true => exact absurd (magicOk_true_iff.mp hok) hm
      have hh : handshakeCompleted inp = false := by
        rw [handshakeCompleted, hacc, hmo]
        rfl
      have ht := serveConn_badMagic_trace hacc hm
      refine ⟨?_, fun h1 => absurd (hh ▸ h1) (by simp), fun _ => ?_⟩
      · rw [registeredDuring, ht, hh, Bool.false_and]
        rfl
      · exact ⟨by rw [countRegisters, ht]; rfl, by rw [countUnregisters, ht]; rfl⟩

def wInput5 : ConnInput :=
  { acceptOk := true
    streamBytes := [77, 67, 80, 49, 104, 105, 10]
    randomBytes := [9, 9, 9, 9]
    regOk := true
    handler := fun l => some l }

/-- C5 witness: a successful handshake and registration with one inbound
line: exactly one registration and one unregistration. -/
theorem C5_witness :
    registeredDuring (ServeConn wInput5) = true ∧
    countRegisters (ServeConn wInput5) = 1 ∧
    countUnregisters (ServeConn wInput5) = 1 := by
  have h := C5_session_lifecycle wInput5
  have hs := h.2.1 rfl rfl
  exact ⟨h.1.trans rfl, hs.2.1, hs.2.2⟩

/-- C6: for a connection that passes the handshake and registration, the
read loop dispatches exactly the nonempty complete lines in arrival order,
and writes exactly one newline-terminated response for each dispatched
line on which the handler yields a non-nil result, in the same order as
the requests; empty lines produce no response. -/
theorem C6_request_response_order (inp : ConnInput)
    (hacc : inp.acceptOk = true)
    (hmagic : inp.streamBytes.take 4 = MagicBytesMCP)
    (hreg : inp.regOk = true) :
    dispatchesOf (ServeConn inp) =
      (splitCompleteLines (inp.streamBytes.drop 4) []).filter
        (fun l => !l.isEmpty) ∧
    responsesOf (ServeConn inp) =
      (((splitCompleteLines (inp.streamBytes.drop 4) []).filter
          (fun l => !l.isEmpty)).filterMap inp.handler).map
        (fun r => r ++ [10]) := by
  have h := serveConn_success_trace hacc hmagic hreg
  constructor
  · rw [dispatchesOf, h]
    simp only [List.filterMap_cons, List.filterMap_append, List.filterMap_nil,
      Event.dispatchLine, readLoop_dispatches, List.append_nil]
  · rw [responsesOf, h]
    simp only [List.filterMap_cons, List.filterMap_append, List.filterMap_nil,
      Event.replyBytes, readLoop_responses, List.append_nil]

def wInput6 : ConnInput :=
  { acceptOk := true
    streamBytes := [77, 67, 80, 49, 65, 10, 10, 66, 10, 67]
    randomBytes := [1, 2, 3, 4]
    regOk := true
    handler := fun l => if l = [66] then none else some (l ++ [33]) }

/-- C6 witness: stream `MCP1` + lines `A`, blank, `B`, trailing `C`
without newline; the handler answers every line except `B`. -/
theorem C6_witness :
    dispatchesOf (ServeConn wInput6) = [[65], [66]] ∧
    responsesOf (ServeConn wInput6) = [[65, 33, 10]] := by
  have h := C6_request_response_order wInput6 rfl (by decide) rfl
  exact ⟨h.1.trans (by decide), h.2.trans (by decide)⟩

/-- C7: evaluation of the two stream-writer code paths.  The notification
write in `session.writeNotifications` performs its write holding the
session write mutex, but the synchronous request-reply write in the
`ServeConn` read loop performs its write without acquiring the mutex; as a
result there is a lock-respecting interleaving of the two writers in which
the two stream writes overlap. -/
theorem C7_reply_write_not_serialized :
    writesUnderLock writeNotificationsActs false = true ∧
    writesUnderLock replyWriteActs false = false ∧
    IsInterleaving raceSchedule replyWriteActs writeNotificationsActs ∧
    lockRespecting raceSchedule none = true ∧
    hasOverlap raceSchedule false false = true := by
  exact ⟨rfl, rfl, ⟨rfl, rfl⟩, rfl, rfl⟩

/-- C8 counterexample: a transient (non-cancellation) accept error makes
the chassis accept loop exit with the error rather than log-and-continue,
refuting the claim for the chassis accept loop. -/
theorem C8_counterexample :
    chassisAcceptStep true false = LoopStep.exitWithError ∧
    decide (chassisAcceptStep true false = LoopStep.continueAfterLog) =
      false := by
  exact ⟨rfl, by decide⟩

/-- C8 (amended): after startup, a transient error from the QUIC
listener's Accept makes the chassis accept loop exit, surfacing the error
on the startup error channel, while context cancellation exits silently as
expected shutdown; it is the standalone `Listener.Serve` accept loop that
logs transient accept errors and continues, exiting (with `ctx.Err()`)
only when the top-level context is cancelled. -/
theorem C8_accept_loop_behaviour :
    chassisAcceptStep false false = LoopStep.handleConn ∧
    chassisAcceptStep false true = LoopStep.handleConn ∧
    chassisAcceptStep true true = LoopStep.exitCanceled ∧
    chassisAcceptStep true false = LoopStep.exitWithError ∧
    listenerServeStep false false = LoopStep.handleConn ∧
    listenerServeStep false true = LoopStep.handleConn ∧
    listenerServeStep true true = LoopStep.exitCanceled ∧
    listenerServeStep true false = LoopStep.continueAfterLog := by
  decide

/-- C9: `Chain(a, b, c)` applied to an endpoint equals `a(b(c(e)))`, so
the first argument is the outermost wrapper; with trace-recording
middlewares the pre-logic runs in order a, b, c, then the endpoint, then
the post-logic in reverse order c, b, a. -/
theorem C9_chain_first_outermost :
    (∀ (Ctx Req Res : Type) (a b c : Middleware Ctx Req Res)
        (e : Endpoint Ctx Req Res), Chain a [b, c] e = a (b (c e))) ∧
    Chain (mkTraceMW "a") [mkTraceMW "b", mkTraceMW "c"] traceEndpoint () [] =
      ["pre-a", "pre-b", "pre-c", "endpoint", "post-c", "post-b", "post-a"] := by
  exact ⟨fun _ _ _ _ _ _ _ => rfl, rfl⟩

/-- C10: `NewClient(addr, nil)` constructs a client whose TLS
configuration is `ClientTLSConfig(true)`: `InsecureSkipVerify` enabled,
ALPN list containing exactly the custom-protocol token `horos-mcp-v1`, and
a TLS 1.3 (`0x0304`) minimum version. -/
theorem C10_nil_tls_defaults (addr : String) :
    NewClient addr none =
      { addr := addr
        tlsCfg :=
          { nextProtos := ["horos-mcp-v1"]
            minVersion := 0x0304
            insecureSkipVerify := true } } := by
  rfl

end Touchstone
